import Mathlib

/-!
Shallow embedding of the validation-and-fallback core of the
`cli_experiments` repository (`agi-cli-platform/src`), covering:

* `enhanced_validator.py` — the 5-layer validation orchestrator
  (`EnhancedValidator.validate_code_comprehensive`) and its layers
  (`InputSanitizer`, `ASTSecurityScanner`, `LLMSecurityValidator`,
  `ComplexityAnalyzer`);
* `multi_provider_llm.py` — provider clients (`GeminiProvider.query`,
  `BaseLLMProvider._record_request`), the router
  (`MultiProviderLLM.query_with_fallback`, `refresh_availability`,
  `_initialize_providers`) and the compatibility `query` method;
* `docker_sandbox.py` — `DockerSandbox.execute_code_safely`.

Python source text is represented by its parse result (an abstract syntax
tree in the subset of Python the validator inspects) plus the textual
facts the validator reads off the raw text (non-blank line count, which
suspicious regex patterns match).  Remote calls (LLM backends, the Docker
daemon) are oracles supplied as explicit inputs.  Python `float` values
that only ever hold exact small quantities (scores, penalties) are
embedded as `Int`; measured times are embedded as `Rat`.
-/

/-! ### Text primitives

Python string operations used by the code (`in`, `.lower()`, `.upper()`,
`.strip()`), implemented over `List Char` so that the kernel can evaluate
them on concrete inputs. -/

/-- Is `pre` a prefix of `l`? (char-list version of Python `startswith`). -/
def charPrefix : List Char → List Char → Bool
  | [], _ => true
  | _ :: _, [] => false
  | p :: ps, c :: cs => p == c && charPrefix ps cs

/-- Does `pat` occur as a contiguous substring of `l`?  Python's `pat in s`. -/
def charContains (pat : List Char) : List Char → Bool
  | [] => charPrefix pat []
  | c :: cs => charPrefix pat (c :: cs) || charContains pat cs

/-- Python `pat in s` on strings. -/
def strContains (s pat : String) : Bool :=
  charContains pat.data s.data

/-- Python `s.lower()` (ASCII; the patterns involved are ASCII). -/
def strLower (s : String) : String :=
  ⟨s.data.map Char.toLower⟩

/-- Python `s.upper()` (ASCII). -/
def strUpper (s : String) : String :=
  ⟨s.data.map Char.toUpper⟩

/-- ASCII whitespace, the characters Python `str.strip()` removes for the
strings this code handles. -/
def pyIsSpace (c : Char) : Bool :=
  c == ' ' || c == '\t' || c == '\n' || c == '\r'

/-- Python `s.strip()`. -/
def strStrip (s : String) : String :=
  ⟨((s.data.dropWhile pyIsSpace).reverse.dropWhile pyIsSpace).reverse⟩

/-- Python truthiness of an `Optional[str]`: `None` and `""` are falsy. -/
def pyFalsyOptStr : Option String → Bool
  | none => true
  | some s => s == ""

/-- Python `a or default` for an `Optional[str]` `a`. -/
def pyOrStr (a : Option String) (dflt : String) : String :=
  match a with
  | none => dflt
  | some s => if s == "" then dflt else s

/-! ### Python AST subset

The subset of Python syntax inspected by `ASTSecurityScanner` and
`ComplexityAnalyzer`: imports, calls, attribute access, function/class
definitions, loops, conditionals, `break`.  A parsed module is a list of
statements; `ast.parse` failure is an `Except.error` carrying the message
text used in `Syntax error: {e}`. -/

mutual

inductive PyExpr : Type where
  /-- `ast.Name` -/
  | name (id : String) : PyExpr
  /-- `ast.Attribute` whose value is a plain name (has an `.id`) -/
  | attrOfName (valueId : String) (attr : String) : PyExpr
  /-- `ast.Attribute` whose value is not a plain name -/
  | attrOfOther (value : PyExpr) (attr : String) : PyExpr
  /-- `ast.Constant` with value `True` -/
  | constTrue : PyExpr
  /-- any other constant -/
  | constOther : PyExpr
  /-- `ast.Call` -/
  | call (func : PyExpr) (args : List PyExpr) : PyExpr


inductive PyStmt : Type where
  /-- `import a, b, ...` (alias names) -/
  | imprt (names : List String) : PyStmt
  /-- `from m import ...`; `module` is `None` for `from . import ...` -/
  | importFrom (module : Option String) : PyStmt
  /-- expression statement -/
  | exprStmt (e : PyExpr) : PyStmt
  /-- `ast.FunctionDef` -/
  | funcDef (name : String) (body : List PyStmt) : PyStmt
  /-- `ast.ClassDef` -/
  | classDef (name : String) (body : List PyStmt) : PyStmt
  /-- `ast.For` -/
  | forStmt (body : List PyStmt) : PyStmt
  /-- `ast.While` -/
  | whileStmt (test : PyExpr) (body : List PyStmt) : PyStmt
  /-- `ast.If` -/
  | ifStmt (body : List PyStmt) (orelse : List PyStmt) : PyStmt
  /-- `ast.Break` -/
  | breakStmt : PyStmt
  /-- `ast.Pass` or any other leaf statement -/
  | passStmt : PyStmt


end

/-- Result of `ast.parse`: the module body, or a syntax-error message. -/
def ParsedModule : Type := Except String (List PyStmt)

/-! ### `ASTSecurityScanner` (enhanced_validator.py, layer 2)

`dangerous_functions`, `dangerous_modules` and the default
`plugins.allowed_imports` are the literal sets from
`ASTSecurityScanner.__init__`.  The visitor methods `visit_Call`,
`visit_Import`, `visit_ImportFrom` append violation strings and recurse
(`generic_visit`); the traversal below produces the same multiset of
violations. -/

def dangerous_functions : List String :=
  ["eval", "exec", "compile", "__import__", "open", "file", "input", "raw_input"]

def dangerous_modules : List String :=
  ["os", "sys", "subprocess", "shutil", "socket", "urllib", "requests", "http"]

def default_allowed_imports : List String :=
  ["click", "pathlib", "typing", "dataclasses", "json", "yaml",
   "datetime", "time", "math", "random", "string", "collections"]

/-- `visit_Call`'s own checks on a call node's `func` (before recursion). -/
def callViolations (func : PyExpr) : List String :=
  match func with
  | .name id =>
      if id ∈ dangerous_functions then [s!"Dangerous function call: {id}"] else []
  | .attrOfName valueId attr =>
      if valueId ∈ dangerous_modules
      then [s!"Dangerous module usage: {valueId}.{attr}"] else []
  | _ => []

/-- `visit_Import`'s checks on one alias name. -/
def importViolation (allowed : List String) (nm : String) : List String :=
  if nm ∈ dangerous_modules then [s!"Dangerous import: {nm}"]
  else if nm ∉ allowed then [s!"Import not in allowed list: {nm}"]
  else []

/-- `visit_ImportFrom`'s checks. -/
def importFromViolation (allowed : List String) (module : Option String) : List String :=
  match module with
  | some m =>
      if m ∈ dangerous_modules then [s!"Dangerous from import: {m}"]
      else if m ∉ allowed then [s!"From import not in allowed list: {m}"]
      else []
  | none => []

mutual

/-- Violations collected by the scanner while visiting an expression. -/
def scanExpr (allowed : List String) : PyExpr → List String
  | .name _ => []
  | .attrOfName _ _ => []
  | .attrOfOther v _ => scanExpr allowed v
  | .constTrue => []
  | .constOther => []
  | .call f args =>
      callViolations f ++ scanExpr allowed f ++ scanExprList allowed args

def scanExprList (allowed : List String) : List PyExpr → List String
  | [] => []
  | e :: es => scanExpr allowed e ++ scanExprList allowed es

/-- Violations collected while visiting a statement. -/
def scanStmt (allowed : List String) : PyStmt → List String
  | .imprt names => names.flatMap (importViolation allowed)
  | .importFrom m => importFromViolation allowed m
  | .exprStmt e => scanExpr allowed e
  | .funcDef _ body => scanStmtList allowed body
  | .classDef _ body => scanStmtList allowed body
  | .forStmt body => scanStmtList allowed body
  | .whileStmt t body => scanExpr allowed t ++ scanStmtList allowed body
  | .ifStmt body orelse => scanStmtList allowed body ++ scanStmtList allowed orelse
  | .breakStmt => []
  | .passStmt => []

def scanStmtList (allowed : List String) : List PyStmt → List String
  | [] => []
  | s :: ss => scanStmt allowed s ++ scanStmtList allowed ss

end

/-- `ASTSecurityScanner.scan_code`: parse, visit, return
`(no violations, violations)`; a parse error fails closed. -/
def scan_code (allowed : List String) (parsed : ParsedModule) : Bool × List String :=
  match parsed with
  | .ok body =>
      let v := scanStmtList allowed body
      (v.isEmpty, v)
  | .error e => (false, [s!"Syntax error: {e}"])

/-! ### `ComplexityAnalyzer` (enhanced_validator.py, layer 4)

`analyze_complexity` parses the code, counts functions / classes / loops /
conditionals over `ast.walk` (the whole tree, nested bodies included),
counts non-blank source lines, checks the configured ceilings, and flags
`while True:` loops with no `break` anywhere in their subtree. -/

structure WalkCounts where
  functions : Nat
  classes : Nat
  loops : Nat
  conditionals : Nat
  deriving DecidableEq

def WalkCounts.add (a b : WalkCounts) : WalkCounts :=
  ⟨a.functions + b.functions, a.classes + b.classes,
   a.loops + b.loops, a.conditionals + b.conditionals⟩

def WalkCounts.zero : WalkCounts := ⟨0, 0, 0, 0⟩

mutual

/-- Node counts of `ast.walk` restricted to one statement's subtree.
(`FunctionDef`, `ClassDef`, `For`/`While`, `If` can only occur as
statements in the embedded subset.) -/
def walkStmt : PyStmt → WalkCounts
  | .imprt _ => .zero
  | .importFrom _ => .zero
  | .exprStmt _ => .zero
  | .funcDef _ body => WalkCounts.add ⟨1, 0, 0, 0⟩ (walkStmtList body)
  | .classDef _ body => WalkCounts.add ⟨0, 1, 0, 0⟩ (walkStmtList body)
  | .forStmt body => WalkCounts.add ⟨0, 0, 1, 0⟩ (walkStmtList body)
  | .whileStmt _ body => WalkCounts.add ⟨0, 0, 1, 0⟩ (walkStmtList body)
  | .ifStmt body orelse =>
      WalkCounts.add ⟨0, 0, 0, 1⟩
        (WalkCounts.add (walkStmtList body) (walkStmtList orelse))
  | .breakStmt => .zero
  | .passStmt => .zero

def walkStmtList : List PyStmt → WalkCounts
  | [] => .zero
  | s :: ss => WalkCounts.add (walkStmt s) (walkStmtList ss)

end

mutual

/-- Is there an `ast.Break` anywhere in the statement's subtree?
(`ast.walk(loop)` descends into nested loops and function bodies too.) -/
def containsBreak : PyStmt → Bool
  | .imprt _ => false
  | .importFrom _ => false
  | .exprStmt _ => false
  | .funcDef _ body => containsBreakList body
  | .classDef _ body => containsBreakList body
  | .forStmt body => containsBreakList body
  | .whileStmt _ body => containsBreakList body
  | .ifStmt body orelse => containsBreakList body || containsBreakList orelse
  | .breakStmt => true
  | .passStmt => false

def containsBreakList : List PyStmt → Bool
  | [] => false
  | s :: ss => containsBreak s || containsBreakList ss

end

mutual

/-- One `"Potential infinite loop detected"` warning per `while True:`
loop with no `break` in its subtree (the heuristic of
`analyze_complexity`). -/
def infLoopWarns : PyStmt → List String
  | .imprt _ => []
  | .importFrom _ => []
  | .exprStmt _ => []
  | .funcDef _ body => infLoopWarnsList body
  | .classDef _ body => infLoopWarnsList body
  | .forStmt body => infLoopWarnsList body
  | .whileStmt test body =>
      (match test with
       | .constTrue =>
           if containsBreakList body then [] else ["Potential infinite loop detected"]
       | _ => []) ++ infLoopWarnsList body
  | .ifStmt body orelse => infLoopWarnsList body ++ infLoopWarnsList orelse
  | .breakStmt => []
  | .passStmt => []

def infLoopWarnsList : List PyStmt → List String
  | [] => []
  | s :: ss => infLoopWarns s ++ infLoopWarnsList ss

end

structure CodeMetrics where
  lines : Nat
  functions : Nat
  classes : Nat
  loops : Nat
  conditionals : Nat
  complexity_score : Nat
  deriving DecidableEq

structure ComplexityConfig where
  max_complexity : Nat := 10
  max_lines : Nat := 100
  max_functions : Nat := 5

/-- `ComplexityAnalyzer.analyze_complexity`.  `nonBlankLines` is
`len([line for line in code.split('\n') if line.strip()])`, a fact of the
raw text supplied with the parsed module. -/
def analyze_complexity (cfg : ComplexityConfig) (parsed : ParsedModule)
    (nonBlankLines : Nat) : Bool × List String × Option CodeMetrics :=
  match parsed with
  | .ok body =>
      let w := walkStmtList body
      let metrics : CodeMetrics :=
        ⟨nonBlankLines, w.functions, w.classes, w.loops, w.conditionals,
         w.loops + w.conditionals + w.functions⟩
      let lineIssues :=
        if nonBlankLines > cfg.max_lines then
          [s!"Code too long: {nonBlankLines} lines (max {cfg.max_lines})"] else []
      let fnIssues :=
        if w.functions > cfg.max_functions then
          [s!"Too many functions: {w.functions} (max {cfg.max_functions})"] else []
      let cxIssues :=
        if metrics.complexity_score > cfg.max_complexity then
          [s!"Code too complex: score {metrics.complexity_score} (max {cfg.max_complexity})"]
        else []
      let issues := lineIssues ++ fnIssues ++ cxIssues
      let warnings := infLoopWarnsList body
      (issues.isEmpty, issues ++ warnings, some metrics)
  | .error e => (false, [s!"Syntax error in complexity analysis: {e}"], none)

/-! ### `InputSanitizer` (enhanced_validator.py, layer 1)

`validate_llm_response` runs five fixed regexes over the raw code text;
the embedding carries, per text, which of the five match. -/

structure TextMatchFacts where
  /-- matches `rm\s+-rf` -/
  rmRf : Bool
  /-- matches `format\s+c:` -/
  formatC : Bool
  /-- matches `del\s+/\w+` -/
  delSlash : Bool
  /-- matches `sudo\s+` -/
  sudoSp : Bool
  /-- matches `chmod\s+777` -/
  chmod777 : Bool
  deriving DecidableEq

/-- `InputSanitizer.validate_llm_response`: one issue per matching
suspicious pattern, passing iff no pattern matches. -/
def validate_llm_response (t : TextMatchFacts) : Bool × List String :=
  let issues :=
    (if t.rmRf then ["Suspicious pattern detected: Dangerous file deletion command"] else []) ++
    (if t.formatC then ["Suspicious pattern detected: Disk formatting command"] else []) ++
    (if t.delSlash then ["Suspicious pattern detected: File deletion command"] else []) ++
    (if t.sudoSp then ["Suspicious pattern detected: Privilege escalation"] else []) ++
    (if t.chmod777 then ["Suspicious pattern detected: Dangerous permission change"] else [])
  (issues.isEmpty, issues)

/-! ### `LLMSecurityValidator` (enhanced_validator.py, layer 3) -/

/-- Outcome of a Python call that may raise: a value or an exception
message (`str(e)`). -/
inductive PyCallResult (α : Type) : Type where
  | ok (a : α) : PyCallResult α
  | exn (msg : String) : PyCallResult α

/-- `LLMSecurityValidator.validate_with_llm`.  `first` is the outcome of
`self.llm_integration.query(code, system_prompt)` (an `Optional[str]`),
`detail` the outcome of the follow-up detail query used when the verdict
is neither SAFE nor UNSAFE.  The surrounding `try` converts any raise into
`(False, ["LLM validation failed: {e}"])`. -/
def validate_with_llm (first detail : PyCallResult (Option String)) :
    Bool × List String :=
  match first with
  | .exn e => (false, [s!"LLM validation failed: {e}"])
  | .ok r =>
      if pyFalsyOptStr r then
        (false, ["LLM validation failed - no response"])
      else
        let resp := strUpper (strStrip (r.getD ""))
        if resp == "SAFE" then (true, [])
        else if resp == "UNSAFE" then
          (false, ["LLM identified security risks in code"])
        else
          match detail with
          | .exn e => (false, [s!"LLM validation failed: {e}"])
          | .ok d =>
              let dtxt := pyOrStr d "Unknown security issue"
              (false, [s!"LLM security concern: {dtxt}"])

/-! ### `DockerSandbox` (docker_sandbox.py, layer 5) -/

structure ExecutionResult where
  success : Bool
  output : String
  error : String
  exit_code : Int
  execution_time : Rat
  /-- `resource_usage` dict, as key/value pairs -/
  resource_usage : List (String × String)
  deriving DecidableEq

/-- Outcome of the container run (`_execute_in_container` plus the
elapsed-time overwrite), or the exception raised inside the `try`
together with the elapsed time measured at the `except`. -/
inductive SandboxRun : Type where
  | ok (r : ExecutionResult) : SandboxRun
  | exn (msg : String) (elapsed : Rat) : SandboxRun

/-- The result `execute_code_safely` returns when Docker is unavailable. -/
def sandboxUnavailableResult : ExecutionResult :=
  ⟨false, "", "Docker sandbox not available", -1, 0, []⟩

/-- `DockerSandbox.execute_code_safely`: unavailable substrate returns a
fixed failure result instead of raising; otherwise the container run's
result, with exceptions converted to a failure result. -/
def execute_code_safely (available : Bool) (run : SandboxRun) : ExecutionResult :=
  if available then
    match run with
    | .ok r => r
    | .exn e t => ⟨false, "", s!"Sandbox execution failed: {e}", -1, t, []⟩
  else sandboxUnavailableResult

/-! ### `EnhancedValidator.validate_code_comprehensive`

The orchestrator runs five sequential layers, each appending to the issue
and warning lists and subtracting a fixed penalty from the running score.
Each layer only writes its own `layer_results` entry and never reads the
state written by earlier layers, so the run is embedded as one output
record per layer, combined in program order. -/

/-- The validated code: parse result plus the facts the pipeline reads
off the raw text. -/
structure SourceCode where
  parsed : ParsedModule
  nonBlankLines : Nat
  textFacts : TextMatchFacts

/-- Configuration values read by the pipeline (`config_manager.get`
defaults shown). -/
structure ValidationConfig where
  allowed_imports : List String := default_allowed_imports
  complexity : ComplexityConfig := {}
  /-- `validation.min_security_score` -/
  min_security_score : Int := 70

/-- The external world of one validation run: user input facts, the LLM
integration's answers, Docker availability and the container run. -/
structure ValidationEnv where
  /-- `user_input` is non-empty (truthy) -/
  user_input_nonempty : Bool
  /-- `sanitize_user_input(user_input) != user_input` -/
  user_input_changed : Bool
  llm_first : PyCallResult (Option String)
  llm_detail : PyCallResult (Option String)
  /-- `docker_sandbox.is_available()` -/
  docker_available : Bool
  sandbox_run : SandboxRun

structure LayerResults where
  input_sanitization : Bool
  ast_analysis : Bool
  llm_validation : Bool
  complexity_analysis : Bool
  /-- `None` (not applicable) when Docker is unavailable -/
  sandbox_execution : Option Bool
  deriving DecidableEq

structure ValidationResult where
  is_valid : Bool
  security_score : Int
  issues : List String
  warnings : List String
  layer_results : LayerResults
  execution_result : Option ExecutionResult

/-- Output of one orchestrator layer: pass flag, issues, warnings,
score penalty. -/
structure LayerOut where
  ok : Bool
  issues : List String
  warnings : List String
  penalty : Int

/-- Layer 1: input sanitization and response check (−30 on failure). -/
def layer1_sanitization (env : ValidationEnv) (code : SourceCode) : LayerOut :=
  let warns :=
    if env.user_input_nonempty && env.user_input_changed
    then ["User input was sanitized"] else []
  let v := validate_llm_response code.textFacts
  ⟨v.1, if v.1 then [] else v.2, warns, if v.1 then 0 else 30⟩

/-- Layer 2: AST security scan (−25 on failure). -/
def layer2_ast (cfg : ValidationConfig) (code : SourceCode) : LayerOut :=
  let v := scan_code cfg.allowed_imports code.parsed
  ⟨v.1, if v.1 then [] else v.2, [], if v.1 then 0 else 25⟩

/-- Layer 3: LLM security validation (−20 on failure). -/
def layer3_llm (env : ValidationEnv) : LayerOut :=
  let v := validate_with_llm env.llm_first env.llm_detail
  ⟨v.1, if v.1 then [] else v.2, [], if v.1 then 0 else 20⟩

/-- Classification used by layer 4: items containing `"Potential"` or
`"Warning"` go to warnings, the rest are issues costing −10 each. -/
def isHeuristicWarning (s : String) : Bool :=
  strContains s "Potential" || strContains s "Warning"

/-- Layer 4: complexity analysis.  When the layer fails, its combined
issue list is split into warnings and issues; each issue costs −10.
When it passes, the combined list is dropped entirely. -/
def layer4_complexity (cfg : ValidationConfig) (code : SourceCode) : LayerOut :=
  let v := analyze_complexity cfg.complexity code.parsed code.nonBlankLines
  if v.1 then ⟨true, [], [], 0⟩
  else
    let warns := v.2.1.filter isHeuristicWarning
    let iss := v.2.1.filter (fun s => !isHeuristicWarning s)
    ⟨false, iss, warns, 10 * iss.length⟩

/-- `f"Long execution time: {execution_time:.2f}s"`; the numeric
rendering of the measured time is abstracted to `toString`. -/
def longExecWarning (t : Rat) : String :=
  "Long execution time: " ++ toString t ++ "s"

/-- Layer 5: sandbox execution.  Skipped (result `None`, a warning, no
penalty) when Docker is unavailable; −15 when the run fails; a
long-execution warning when it succeeds slowly. -/
def layer5_sandbox (env : ValidationEnv) :
    LayerOut × Option Bool × Option ExecutionResult :=
  if env.docker_available then
    let r := execute_code_safely true env.sandbox_run
    if r.success then
      (⟨true, [],
        if r.execution_time > 10 then [longExecWarning r.execution_time] else [],
        0⟩, some true, some r)
    else
      let e := r.error
      (⟨false, [s!"Sandbox execution failed: {e}"], [], 15⟩, some false, some r)
  else
    (⟨true, [], ["Docker sandbox not available - skipping execution validation"], 0⟩,
     none, none)

/-- `f"Security score too low: {security_score:.1f}/100"` for the
integer-valued scores the pipeline produces. -/
def lowScoreIssue (score : Int) : String :=
  "Security score too low: " ++ toString score ++ ".0/100"

/-- `EnhancedValidator.validate_code_comprehensive`. -/
def validate_code_comprehensive (cfg : ValidationConfig) (code : SourceCode)
    (env : ValidationEnv) : ValidationResult :=
  let l1 := layer1_sanitization env code
  let l2 := layer2_ast cfg code
  let l3 := layer3_llm env
  let l4 := layer4_complexity cfg code
  let L5 := layer5_sandbox env
  let l5 := L5.1
  let score : Int := 100 - l1.penalty - l2.penalty - l3.penalty - l4.penalty - l5.penalty
  let criticalFailures : Nat :=
    (if l1.ok then 0 else 1) + (if l2.ok then 0 else 1) + (if l3.ok then 0 else 1)
  let is_valid := criticalFailures == 0 && score ≥ cfg.min_security_score
  let issues :=
    l1.issues ++ l2.issues ++ l3.issues ++ l4.issues ++ l5.issues ++
    (if score < 70 then [lowScoreIssue score] else [])
  let warnings := l1.warnings ++ l2.warnings ++ l3.warnings ++ l4.warnings ++ l5.warnings
  { is_valid := is_valid
    security_score := score
    issues := issues
    warnings := warnings
    layer_results :=
      ⟨l1.ok, l2.ok, l3.ok, l4.ok, L5.2.1⟩
    execution_result := L5.2.2 }

/-! ### Provider clients (multi_provider_llm.py)

`GeminiProvider` is embedded in full as the representative provider
client (the cited symbol of the statistics contract); the other three
providers share the same `_record_request` discipline verbatim. -/

structure LLMResponse where
  content : String
  provider : String
  model : String
  tokens_used : Nat
  response_time : Rat
  success : Bool
  error : Option String := none
  deriving DecidableEq

/-- `ProviderRuntimeStats`: the three counters of `BaseLLMProvider`. -/
structure ProviderStats where
  request_count : Nat
  error_count : Nat
  total_response_time : Rat
  deriving DecidableEq

/-- `BaseLLMProvider._record_request`. -/
def record_request (st : ProviderStats) (response_time : Rat) (success : Bool) :
    ProviderStats :=
  ⟨st.request_count + 1,
   if success then st.error_count else st.error_count + 1,
   st.total_response_time + response_time⟩

/-- Python `str.split()` word count (whitespace-run separated), used for
the token estimate `len(text.split()) + len(prompt.split())`. -/
def countWordsAux : List Char → Bool → Nat
  | [], _ => 0
  | c :: cs, inWord =>
      if pyIsSpace c then countWordsAux cs false
      else (if inWord then 0 else 1) + countWordsAux cs true

def wordCount (s : String) : Nat := countWordsAux s.data false

/-- Outcome of the HTTP exchange inside `GeminiProvider.query`, each with
the elapsed time measured right after `requests.post`:
`okParsed` = status 200 with a candidates/parts text, `okBad` = status
200 without one, `err` = non-200 status, `exn` = a raised exception. -/
inductive GeminiHttp : Type where
  | okParsed (rawText : String) (elapsed : Rat) : GeminiHttp
  | okBad (elapsed : Rat) : GeminiHttp
  | err (status : Nat) (body : String) (elapsed : Rat) : GeminiHttp
  | exn (msg : String) (elapsed : Rat) : GeminiHttp

def GeminiHttp.elapsed : GeminiHttp → Rat
  | .okParsed _ t => t
  | .okBad t => t
  | .err _ _ t => t
  | .exn _ t => t

def GeminiHttp.isSuccess : GeminiHttp → Bool
  | .okParsed _ _ => true
  | _ => false

/-- State of a `GeminiProvider` instance that `query` reads. -/
structure GeminiState where
  stats : ProviderStats
  /-- `bool(self.api_key)` after the env-var fallback -/
  api_key_present : Bool
  /-- `self.config.enabled` -/
  enabled : Bool
  name : String
  model : String

/-- `GeminiProvider.is_available`. -/
def gemini_is_available (st : GeminiState) : Bool :=
  st.api_key_present && st.enabled

/-- `GeminiProvider.query`: returns the `LLMResponse` and the provider's
statistics after the call.  When unavailable it returns early, before any
`_record_request`. -/
def gemini_query (st : GeminiState) (prompt : String) (outcome : GeminiHttp) :
    LLMResponse × ProviderStats :=
  if gemini_is_available st then
    match outcome with
    | .okParsed raw t =>
        let text := strStrip raw
        (⟨text, st.name, st.model, wordCount text + wordCount prompt, t, true, none⟩,
         record_request st.stats t true)
    | .okBad t =>
        (⟨"", st.name, st.model, 0, t, false, some "No valid response from Gemini API"⟩,
         record_request st.stats t false)
    | .err status body t =>
        (⟨"", st.name, st.model, 0, t, false,
          some (s!"Gemini API error: {status} - {body}")⟩,
         record_request st.stats t false)
    | .exn m t =>
        (⟨"", st.name, st.model, 0, t, false, some (s!"Gemini request failed: {m}")⟩,
         record_request st.stats t false)
  else
    (⟨"", st.name, st.model, 0, 0, false, some "Gemini provider not available"⟩,
     st.stats)

/-! ### Provider router (MultiProviderLLM)

Availability and fallback-order computation.  `sorted(..., key=priority)`
is Python's stable sort; `List.insertionSort` is likewise stable, and two
stable sorts by the same key agree, so the embedding uses
`insertionSort`. -/

inductive ProviderKind : Type where
  /-- gemini / openai / anthropic: `is_available = bool(api_key and enabled)` -/
  | remote : ProviderKind
  /-- local (Ollama): `is_available = enabled and health-probe succeeds` -/
  | lokal : ProviderKind

structure RouterProvider where
  name : String
  /-- `config.priority` (lower = preferred) -/
  priority : Int
  /-- `config.enabled` -/
  enabled : Bool
  /-- credential present (`bool(self.api_key)` after env fallback) -/
  has_credential : Bool
  kind : ProviderKind
  /-- for the local provider: the `/api/tags` probe returns 200 -/
  local_reachable : Bool

/-- `provider.is_available()` per provider class. -/
def provider_is_available (p : RouterProvider) : Bool :=
  match p.kind with
  | .remote => p.has_credential && p.enabled
  | .lokal => p.enabled && p.local_reachable

/-- The sort relation of `sorted(..., key=lambda n: priority)`. -/
def byPriority (a b : RouterProvider) : Prop := a.priority ≤ b.priority

instance : DecidableRel byPriority := fun a b => Int.decLe a.priority b.priority

instance : IsTotal RouterProvider byPriority :=
  ⟨fun a b => Int.le_total a.priority b.priority⟩

instance : IsTrans RouterProvider byPriority :=
  ⟨fun _ _ _ hab hbc => Int.le_trans hab hbc⟩

/-- The available providers in dict order, stably sorted by priority. -/
def sortedAvailable (providers : List RouterProvider) : List RouterProvider :=
  List.insertionSort byPriority (providers.filter provider_is_available)

/-- The fallback-order expression shared verbatim by
`_initialize_providers` and `refresh_availability`. -/
def compute_fallback_order (providers : List RouterProvider) : List String :=
  (sortedAvailable providers).map (fun p => p.name)

structure RouterState where
  providers : List RouterProvider
  fallback_order : List String

/-- Tail of `MultiProviderLLM._initialize_providers`. -/
def initialize_router (providers : List RouterProvider) : RouterState :=
  ⟨providers, compute_fallback_order providers⟩

/-- `MultiProviderLLM.refresh_availability`. -/
def refresh_availability (s : RouterState) : RouterState :=
  { s with fallback_order := compute_fallback_order s.providers }

/-! ### `MultiProviderLLM.query_with_fallback`

Each provider's behavior at query time is a function from the attempt
index to the outcome of `provider.query` (a response, or a raised
exception).  The embedding additionally returns, with the response, a log
of `(provider name, number of calls made to it)` in trial order, so that
call-count claims are statable. -/

/-- A provider as seen by the fallback loop. -/
structure LiveProvider where
  name : String
  /-- `provider.is_available()` at query time -/
  available : Bool
  /-- outcome of the `attempt`-th call to `provider.query` -/
  behave : Nat → PyCallResult LLMResponse

/-- `self.providers[provider_name]` lookup. -/
def findProvider (ps : List LiveProvider) (nm : String) : Option LiveProvider :=
  ps.find? (fun p => p.name == nm)

/-- `"API key" in last_error or "authentication" in last_error.lower()`. -/
def isAuthClassError (e : String) : Bool :=
  strContains e "API key" || strContains (strLower e) "authentication"

/-- The `for attempt in range(max_retries)` loop for one provider,
starting at attempt index `i` with `fuel` attempts left.  Returns the
successful response if any, the final `last_error`, and the number of
calls made to this provider. -/
def try_provider (behave : Nat → PyCallResult LLMResponse) (i : Nat)
    (fuel : Nat) (lastError : String) : Option LLMResponse × String × Nat :=
  match fuel with
  | 0 => (none, lastError, 0)
  | f + 1 =>
      match behave i with
      | .ok r =>
          if r.success then (some r, lastError, 1)
          else
            let le := pyOrStr r.error "Unknown provider error"
            if isAuthClassError le then (none, le, 1)
            else
              let rest := try_provider behave (i + 1) f le
              (rest.1, rest.2.1, rest.2.2 + 1)
      | .exn m =>
          let rest := try_provider behave (i + 1) f m
          (rest.1, rest.2.1, rest.2.2 + 1)

/-- The `for provider_name in self.fallback_order` loop. -/
def run_fallback (ps : List LiveProvider) (max_retries : Nat) :
    List String → String → Option LLMResponse × String × List (String × Nat)
  | [], lastError => (none, lastError, [])
  | nm :: rest, lastError =>
      match findProvider ps nm with
      | none => run_fallback ps max_retries rest lastError
      | some p =>
          if p.available then
            let t := try_provider p.behave 0 max_retries lastError
            match t.1 with
            | some r => (some r, t.2.1, [(nm, t.2.2)])
            | none =>
                let k := run_fallback ps max_retries rest t.2.1
                (k.1, k.2.1, (nm, t.2.2) :: k.2.2)
          else run_fallback ps max_retries rest lastError

/-- `MultiProviderLLM.query_with_fallback`, with its call log. -/
def query_with_fallback (ps : List LiveProvider) (order : List String)
    (max_retries : Nat) : LLMResponse × List (String × Nat) :=
  if order.isEmpty then
    (⟨"", "none", "none", 0, 0, false, some "No LLM providers available"⟩, [])
  else
    let k := run_fallback ps max_retries order "Unknown error"
    match k.1 with
    | some r => (r, k.2.2)
    | none =>
        let le := k.2.1
        (⟨"", "failed", "none", 0, 0, false,
          some (s!"All providers failed. Last error: {le}")⟩, k.2.2)

/-- Total number of calls made to provider `nm` during one
`query_with_fallback` run. -/
def callsTo (log : List (String × Nat)) (nm : String) : Nat :=
  ((log.filter (fun e => e.1 == nm)).map Prod.snd).sum

/-- The compatibility `MultiProviderLLM.query` method (default
`max_retries = 3`): `response.content if response.success else None`. -/
def mp_query (ps : List LiveProvider) (order : List String) : Option String :=
  let r := (query_with_fallback ps order 3).1
  if r.success then some r.content else none

/-! ### Concrete inputs used by counterexamples and witnesses -/

/-- The code text `"import os"`: one non-blank line, parses to a single
`import os` statement, matches no suspicious text pattern. -/
def codeImportOs : SourceCode :=
  ⟨.ok [.imprt ["os"]], 1, ⟨false, false, false, false, false⟩⟩

/-- A code text containing a call `eval(...)`: parses to one call
expression statement. -/
def codeEval : SourceCode :=
  ⟨.ok [.exprStmt (.call (.name "eval") [.constOther])], 1,
   ⟨false, false, false, false, false⟩⟩

/-- The code text `"print('hi')"`. -/
def codePrint : SourceCode :=
  ⟨.ok [.exprStmt (.call (.name "print") [.constOther])], 1,
   ⟨false, false, false, false, false⟩⟩

/-- A `while True: pass` module (two non-blank lines). -/
def codeLoop : SourceCode :=
  ⟨.ok [.whileStmt .constTrue [.passStmt]], 2, ⟨false, false, false, false, false⟩⟩

/-- A benign environment: no user input, the LLM answers `SAFE`, Docker
unavailable. -/
def benignEnv : ValidationEnv :=
  ⟨false, false, .ok (some "SAFE"), .ok none, false, .exn "unused" 0⟩

/-- A Gemini client with an absent API key (hence unavailable) and fresh
statistics. -/
def geminiUnavail : GeminiState :=
  ⟨⟨0, 0, 0⟩, false, true, "gemini", "gemini-2.0-flash"⟩

/-- A Gemini client with an API key present and fresh statistics. -/
def geminiAvail : GeminiState :=
  ⟨⟨0, 0, 0⟩, true, true, "gemini", "gemini-2.0-flash"⟩

/-- The local (Ollama) provider, enabled and reachable, with no
credential configured (`api_key=''`), at its default priority 4. -/
def localP : RouterProvider := ⟨"local", 4, true, false, .lokal, true⟩

/-- The Gemini provider entry with a credential, at its default
priority 1. -/
def gemP : RouterProvider := ⟨"gemini", 1, true, true, .remote, false⟩

/-- A provider whose every call returns a failed response with an
authentication-class error. -/
def authProv : LiveProvider :=
  ⟨"auth", true, fun _ => .ok ⟨"", "auth", "m", 0, 0, false, some "bad API key"⟩⟩

/-- A provider whose every call returns a failed response with a
non-authentication error. -/
def failProv : LiveProvider :=
  ⟨"fail", true, fun _ => .ok ⟨"", "fail", "m", 0, 0, false, some "server error 500"⟩⟩

/-- A provider that succeeds with empty content. -/
def emptyContentProv : LiveProvider :=
  ⟨"gemini", true, fun _ => .ok ⟨"", "gemini", "m", 0, 0, true, none⟩⟩

/-! ### Helper lemmas -/

theorem validate_score_eq (cfg : ValidationConfig) (code : SourceCode)
    (env : ValidationEnv) :
    (validate_code_comprehensive cfg code env).security_score =
      100 - (layer1_sanitization env code).penalty - (layer2_ast cfg code).penalty
          - (layer3_llm env).penalty - (layer4_complexity cfg code).penalty
          - (layer5_sandbox env).1.penalty := rfl

theorem validate_layer_results_eq (cfg : ValidationConfig) (code : SourceCode)
    (env : ValidationEnv) :
    (validate_code_comprehensive cfg code env).layer_results =
      ⟨(layer1_sanitization env code).ok, (layer2_ast cfg code).ok,
       (layer3_llm env).ok, (layer4_complexity cfg code).ok,
       (layer5_sandbox env).2.1⟩ := rfl

theorem validate_issues_eq (cfg : ValidationConfig) (code : SourceCode)
    (env : ValidationEnv) :
    (validate_code_comprehensive cfg code env).issues =
      (layer1_sanitization env code).issues ++ (layer2_ast cfg code).issues ++
      (layer3_llm env).issues ++ (layer4_complexity cfg code).issues ++
      (layer5_sandbox env).1.issues ++
      (if (validate_code_comprehensive cfg code env).security_score < 70
       then [lowScoreIssue (validate_code_comprehensive cfg code env).security_score]
       else []) := rfl

theorem validate_warnings_eq (cfg : ValidationConfig) (code : SourceCode)
    (env : ValidationEnv) :
    (validate_code_comprehensive cfg code env).warnings =
      (layer1_sanitization env code).warnings ++ (layer2_ast cfg code).warnings ++
      (layer3_llm env).warnings ++ (layer4_complexity cfg code).warnings ++
      (layer5_sandbox env).1.warnings := rfl

theorem validate_is_valid_eq (cfg : ValidationConfig) (code : SourceCode)
    (env : ValidationEnv) :
    (validate_code_comprehensive cfg code env).is_valid =
      (((if (layer1_sanitization env code).ok then 0 else 1) +
        (if (layer2_ast cfg code).ok then 0 else 1) +
        (if (layer3_llm env).ok then 0 else 1) : Nat) == 0 &&
       decide ((validate_code_comprehensive cfg code env).security_score ≥
         cfg.min_security_score)) := rfl

theorem layer1_penalty_nonneg (env : ValidationEnv) (code : SourceCode) :
    0 ≤ (layer1_sanitization env code).penalty := by
  unfold layer1_sanitization
  dsimp only
  split <;> decide

theorem layer2_penalty_nonneg (cfg : ValidationConfig) (code : SourceCode) :
    0 ≤ (layer2_ast cfg code).penalty := by
  unfold layer2_ast
  dsimp only
  split <;> decide

theorem layer3_penalty_nonneg (env : ValidationEnv) :
    0 ≤ (layer3_llm env).penalty := by
  unfold layer3_llm
  dsimp only
  split <;> decide

theorem layer4_penalty_nonneg (cfg : ValidationConfig) (code : SourceCode) :
    0 ≤ (layer4_complexity cfg code).penalty := by
  unfold layer4_complexity
  dsimp only
  split
  · decide
  · positivity

theorem layer5_penalty_nonneg (env : ValidationEnv) :
    0 ≤ (layer5_sandbox env).1.penalty := by
  unfold layer5_sandbox
  dsimp only
  split
  · split <;> simp
  · simp

theorem scan_fail_of_mem (allowed : List String) (p : ParsedModule) (x : String)
    (h : x ∈ (scan_code allowed p).2) : (scan_code allowed p).1 = false := by
  cases p with
  | ok body =>
      have hne : scanStmtList allowed body ≠ [] := by
        unfold scan_code at h
        exact List.ne_nil_of_mem h
      unfold scan_code
      simpa [List.isEmpty_iff] using hne
  | error e => rfl

theorem is_valid_false_of_ast_fail (cfg : ValidationConfig) (code : SourceCode)
    (env : ValidationEnv) (h : (layer2_ast cfg code).ok = false) :
    (validate_code_comprehensive cfg code env).is_valid = false := by
  rw [validate_is_valid_eq, h]
  cases (layer1_sanitization env code).ok <;> cases (layer3_llm env).ok <;> rfl

theorem longExecWarning_ne_infLoop (t : Rat) :
    longExecWarning t ≠ "Potential infinite loop detected" := by
  intro h
  have h1 : (longExecWarning t).data.head? = some 'L' := rfl
  rw [h] at h1
  exact absurd h1 (by decide)

/-! ### Claim theorems -/

/-- C5: for every input to the validation entry point, every per-layer
score penalty is non-negative and the security score, which starts at
100 and only has these penalties subtracted, is therefore at most 100. -/
theorem c5_score_monotone (cfg : ValidationConfig) (code : SourceCode)
    (env : ValidationEnv) :
    0 ≤ (layer1_sanitization env code).penalty ∧
    0 ≤ (layer2_ast cfg code).penalty ∧
    0 ≤ (layer3_llm env).penalty ∧
    0 ≤ (layer4_complexity cfg code).penalty ∧
    0 ≤ (layer5_sandbox env).1.penalty ∧
    (validate_code_comprehensive cfg code env).security_score ≤ 100 := by
  have h1 := layer1_penalty_nonneg env code
  have h2 := layer2_penalty_nonneg cfg code
  have h3 := layer3_penalty_nonneg env
  have h4 := layer4_penalty_nonneg cfg code
  have h5 := layer5_penalty_nonneg env
  refine ⟨h1, h2, h3, h4, h5, ?_⟩
  rw [validate_score_eq]
  omega

/-- C1 counterexample: on the code `"import os"` (in a benign
environment) the validator's issue list does not contain
`"Import not in allowed list: os"` — the claim's issue string is wrong. -/
theorem c1_counterexample :
    "os" ∉ ({} : ValidationConfig).allowed_imports ∧
    "Import not in allowed list: os" ∉
      (validate_code_comprehensive {} codeImportOs benignEnv).issues := by
  constructor
  · decide
  · decide

/-- C1 (amended): on the code `"import os"` (with `os` not in the
allow-list) the validator produces the static-scan issue
`"Dangerous import: os"` — `os` is in the dangerous-modules set, whose
check precedes the allow-list check — a security score of at most 75,
and `is_valid = false`. -/
theorem c1_amended (cfg : ValidationConfig) (env : ValidationEnv)
    (hos : "os" ∉ cfg.allowed_imports) :
    "Dangerous import: os" ∈ (validate_code_comprehensive cfg codeImportOs env).issues ∧
    (validate_code_comprehensive cfg codeImportOs env).security_score ≤ 75 ∧
    (validate_code_comprehensive cfg codeImportOs env).is_valid = false := by
  have hscan : scan_code cfg.allowed_imports codeImportOs.parsed =
      (false, ["Dangerous import: os"]) := rfl
  have hl2 : layer2_ast cfg codeImportOs =
      ⟨false, ["Dangerous import: os"], [], 25⟩ := by
    unfold layer2_ast
    rw [hscan]
    rfl
  refine ⟨?_, ?_, ?_⟩
  · rw [validate_issues_eq, hl2]
    simp
  · rw [validate_score_eq, hl2]
    have h1 := layer1_penalty_nonneg env codeImportOs
    have h3 := layer3_penalty_nonneg env
    have h4 := layer4_penalty_nonneg cfg codeImportOs
    have h5 := layer5_penalty_nonneg env
    dsimp only
    omega
  · exact is_valid_false_of_ast_fail cfg codeImportOs env (by rw [hl2])

/-- C1 amended witness at a concrete configuration and environment. -/
theorem c1_amended_witness :
    "Dangerous import: os" ∈ (validate_code_comprehensive {} codeImportOs benignEnv).issues ∧
    (validate_code_comprehensive {} codeImportOs benignEnv).security_score ≤ 75 ∧
    (validate_code_comprehensive {} codeImportOs benignEnv).is_valid = false :=
  c1_amended {} benignEnv (by decide)

/-- C4: whenever the static scan flags a dangerous function call, the
static-scan layer result is recorded as `false` and the overall verdict
is `is_valid = false`, whatever every other layer does. -/
theorem c4_dangerous_call_rejects (cfg : ValidationConfig) (code : SourceCode)
    (env : ValidationEnv) (f : String)
    (h : s!"Dangerous function call: {f}" ∈ (scan_code cfg.allowed_imports code.parsed).2) :
    (validate_code_comprehensive cfg code env).layer_results.ast_analysis = false ∧
    (validate_code_comprehensive cfg code env).is_valid = false := by
  have hfail : (scan_code cfg.allowed_imports code.parsed).1 = false :=
    scan_fail_of_mem cfg.allowed_imports code.parsed _ h
  have hl2 : (layer2_ast cfg code).ok = false := by
    unfold layer2_ast
    exact hfail
  constructor
  · rw [validate_layer_results_eq]
    exact hl2
  · exact is_valid_false_of_ast_fail cfg code env hl2

/-- C4 witness: code containing `eval(...)`, with every other layer
passing and the score otherwise perfect. -/
theorem c4_witness :
    (validate_code_comprehensive {} codeEval benignEnv).layer_results.ast_analysis = false ∧
    (validate_code_comprehensive {} codeEval benignEnv).is_valid = false :=
  c4_dangerous_call_rejects {} codeEval benignEnv "eval" (by decide)

theorem infLoop_not_mem_layer1 (env : ValidationEnv) (code : SourceCode) :
    "Potential infinite loop detected" ∉ (layer1_sanitization env code).warnings := by
  unfold layer1_sanitization
  dsimp only
  split <;> decide

theorem infLoop_not_mem_layer5 (env : ValidationEnv) :
    "Potential infinite loop detected" ∉ (layer5_sandbox env).1.warnings := by
  unfold layer5_sandbox
  dsimp only
  split
  · split
    · dsimp only
      split
      · intro hmem
        simp only [List.mem_singleton] at hmem
        exact longExecWarning_ne_infLoop _ hmem.symm
      · simp
    · simp
  · decide

theorem complexity_pass_no_infloop_warn (cfg : ValidationConfig) (code : SourceCode)
    (env : ValidationEnv)
    (h : (analyze_complexity cfg.complexity code.parsed code.nonBlankLines).1 = true) :
    "Potential infinite loop detected" ∉
      (validate_code_comprehensive cfg code env).warnings := by
  have hl4 : layer4_complexity cfg code = ⟨true, [], [], 0⟩ := by
    unfold layer4_complexity
    dsimp only
    rw [h]
    rfl
  have h2w : (layer2_ast cfg code).warnings = [] := rfl
  have h3w : (layer3_llm env).warnings = [] := rfl
  rw [validate_warnings_eq, hl4, h2w, h3w]
  intro hmem
  simp only [List.append_nil, List.mem_append] at hmem
  rcases hmem with (hm | hm)
  · exact infLoop_not_mem_layer1 env code hm
  · exact infLoop_not_mem_layer5 env hm

/-- C8: if the complexity layer passes, its heuristic warnings (such as
`"Potential infinite loop detected"`) are discarded and never appear in
the returned warnings; conversely such a warning appears only when the
complexity layer result is `false`. -/
theorem c8_complexity_warning_surfacing (cfg : ValidationConfig) (code : SourceCode)
    (env : ValidationEnv) :
    ((analyze_complexity cfg.complexity code.parsed code.nonBlankLines).1 = true →
      "Potential infinite loop detected" ∉
        (validate_code_comprehensive cfg code env).warnings) ∧
    ("Potential infinite loop detected" ∈
        (validate_code_comprehensive cfg code env).warnings →
      (validate_code_comprehensive cfg code env).layer_results.complexity_analysis
        = false) := by
  constructor
  · exact complexity_pass_no_infloop_warn cfg code env
  · intro hmem
    rw [validate_layer_results_eq]
    by_cases h : (analyze_complexity cfg.complexity code.parsed code.nonBlankLines).1 = true
    · exact absurd hmem (complexity_pass_no_infloop_warn cfg code env h)
    · have hf : (analyze_complexity cfg.complexity code.parsed code.nonBlankLines).1
          = false := Bool.eq_false_iff.mpr h
      show (layer4_complexity cfg code).ok = false
      unfold layer4_complexity
      dsimp only
      rw [hf]
      rfl

/-- C8 witness: a `while True: pass` module passes the complexity layer
(no hard violations), and its heuristic warning is absent from the
result. -/
theorem c8_witness :
    "Potential infinite loop detected" ∉
      (validate_code_comprehensive {} codeLoop benignEnv).warnings :=
  (c8_complexity_warning_surfacing {} codeLoop benignEnv).1 (by decide)

/-- C7: when the Docker substrate is unavailable, the sandbox executor
returns `success=false` with the substrate-unavailable error instead of
raising; the orchestrator records the sandbox layer as `None`
(not-applicable, not `false`), adds the skip warning, applies no penalty
for that layer, and `is_valid` is still `true` whenever the three
critical layers pass and the score reaches the configured minimum. -/
theorem c7_sandbox_unavailable (cfg : ValidationConfig) (code : SourceCode)
    (env : ValidationEnv) (run : SandboxRun)
    (h : env.docker_available = false) :
    execute_code_safely env.docker_available run = sandboxUnavailableResult ∧
    sandboxUnavailableResult.success = false ∧
    sandboxUnavailableResult.error = "Docker sandbox not available" ∧
    (validate_code_comprehensive cfg code env).layer_results.sandbox_execution = none ∧
    "Docker sandbox not available - skipping execution validation" ∈
      (validate_code_comprehensive cfg code env).warnings ∧
    (layer5_sandbox env).1.penalty = 0 ∧
    ((layer1_sanitization env code).ok = true →
     (layer2_ast cfg code).ok = true →
     (layer3_llm env).ok = true →
     cfg.min_security_score ≤ (validate_code_comprehensive cfg code env).security_score →
     (validate_code_comprehensive cfg code env).is_valid = true) := by
  have hl5 : layer5_sandbox env =
      (⟨true, [], ["Docker sandbox not available - skipping execution validation"], 0⟩,
       none, none) := by
    unfold layer5_sandbox
    rw [h]
    rfl
  refine ⟨?_, rfl, rfl, ?_, ?_, ?_, ?_⟩
  · rw [h]
    rfl
  · rw [validate_layer_results_eq, hl5]
  · rw [validate_warnings_eq, hl5]
    simp
  · rw [hl5]
  · intro h1 h2 h3 hs
    rw [validate_is_valid_eq, h1, h2, h3]
    simpa using hs

/-- C7 witness: `print('hi')` with all critical layers passing and Docker
unavailable is still accepted. -/
theorem c7_witness :
    (validate_code_comprehensive {} codePrint benignEnv).is_valid = true :=
  (c7_sandbox_unavailable {} codePrint benignEnv (.exn "u" 0) rfl).2.2.2.2.2.2
    rfl rfl rfl (by decide)

/-- C2 counterexample: a call to `query` while the provider is
unavailable does not update the runtime statistics at all — the request
count stays 0 instead of being incremented once as the claim requires. -/
theorem c2_counterexample :
    gemini_is_available geminiUnavail = false ∧
    (gemini_query geminiUnavail "p" (.okBad 1)).2 = geminiUnavail.stats ∧
    (gemini_query geminiUnavail "p" (.okBad 1)).2.request_count ≠
      geminiUnavail.stats.request_count + 1 := by
  refine ⟨rfl, rfl, ?_⟩
  decide

/-- C2 (amended): every call to the provider client's `query` made while
the provider is available updates the runtime statistics exactly once,
recording the call's latency and success/failure; a call made while the
provider is unavailable returns a failure response early and leaves the
statistics untouched. -/
theorem c2_amended_stats (st : GeminiState) (prompt : String) (outcome : GeminiHttp) :
    (gemini_is_available st = true →
      (gemini_query st prompt outcome).2.request_count = st.stats.request_count + 1 ∧
      (gemini_query st prompt outcome).2.total_response_time =
        st.stats.total_response_time + outcome.elapsed ∧
      (gemini_query st prompt outcome).2.error_count =
        st.stats.error_count + (if (gemini_query st prompt outcome).1.success then 0 else 1) ∧
      (gemini_query st prompt outcome).1.success = outcome.isSuccess) ∧
    (gemini_is_available st = false →
      (gemini_query st prompt outcome).2 = st.stats ∧
      (gemini_query st prompt outcome).1 =
        ⟨"", st.name, st.model, 0, 0, false, some "Gemini provider not available"⟩) := by
  constructor
  · intro hav
    unfold gemini_query
    rw [hav]
    cases outcome <;>
      simp [record_request, GeminiHttp.elapsed, GeminiHttp.isSuccess]
  · intro hav
    unfold gemini_query
    rw [hav]
    exact ⟨rfl, rfl⟩

/-- C2 amended witness: an available client making a failing call has its
request count incremented to 1, latency accumulated, and one error
recorded. -/
theorem c2_amended_witness :
    (gemini_query geminiAvail "p" (.okBad 1)).2.request_count = 0 + 1 ∧
    (gemini_query geminiAvail "p" (.okBad 1)).2.total_response_time =
      0 + (GeminiHttp.okBad 1).elapsed ∧
    (gemini_query geminiAvail "p" (.okBad 1)).2.error_count =
      0 + (if (gemini_query geminiAvail "p" (.okBad 1)).1.success then 0 else 1) ∧
    (gemini_query geminiAvail "p" (.okBad 1)).1.success =
      (GeminiHttp.okBad 1).isSuccess :=
  (c2_amended_stats geminiAvail "p" (.okBad 1)).1 rfl

/-- C9: with an empty fallback order, `query_with_fallback` returns a
failure response with provider `"none"` and error
`"No LLM providers available"`, and its call log is empty — no provider
is attempted. -/
theorem c9_empty_fallback (ps : List LiveProvider) (max_retries : Nat) :
    query_with_fallback ps [] max_retries =
      (⟨"", "none", "none", 0, 0, false, some "No LLM providers available"⟩, []) ∧
    (query_with_fallback ps [] max_retries).1.success = false ∧
    (query_with_fallback ps [] max_retries).1.provider = "none" ∧
    (query_with_fallback ps [] max_retries).1.error =
      some "No LLM providers available" :=
  ⟨rfl, rfl, rfl, rfl⟩

/-- C10: when the provider chain succeeds with empty content, the
compatibility `query` returns the empty string, which the semantic
validator's truthiness test conflates with no answer at all: the layer
fails with `"LLM validation failed - no response"`, exactly as it does
when the chain fails outright. -/
theorem c10_empty_content_conflated (ps : List LiveProvider) (order : List String)
    (detail : PyCallResult (Option String))
    (h1 : (query_with_fallback ps order 3).1.success = true)
    (h2 : (query_with_fallback ps order 3).1.content = "") :
    mp_query ps order = some "" ∧
    validate_with_llm (.ok (mp_query ps order)) detail =
      (false, ["LLM validation failed - no response"]) ∧
    validate_with_llm (.ok none) detail =
      (false, ["LLM validation failed - no response"]) := by
  have hq : mp_query ps order = some "" := by
    unfold mp_query
    dsimp only
    rw [h1]
    simp [h2]
  refine ⟨hq, ?_, rfl⟩
  rw [hq]
  rfl

/-- C10 witness: a provider that answers successfully with empty
content. -/
theorem c10_witness :
    mp_query [emptyContentProv] ["gemini"] = some "" ∧
    validate_with_llm (.ok (mp_query [emptyContentProv] ["gemini"])) (.ok none) =
      (false, ["LLM validation failed - no response"]) ∧
    validate_with_llm (.ok none) (.ok none) =
      (false, ["LLM validation failed - no response"]) :=
  c10_empty_content_conflated [emptyContentProv] ["gemini"] (.ok none)
    (by decide) (by decide)

theorem available_imp_enabled (p : RouterProvider)
    (h : provider_is_available p = true) : p.enabled = true := by
  unfold provider_is_available at h
  cases hp : p.kind
  · rw [hp] at h
    simp only [Bool.and_eq_true] at h
    exact h.2
  · rw [hp] at h
    simp only [Bool.and_eq_true] at h
    exact h.1

theorem available_remote_imp_credential (p : RouterProvider)
    (h : provider_is_available p = true) (hk : p.kind = .remote) :
    p.has_credential = true := by
  unfold provider_is_available at h
  rw [hk] at h
  simp only [Bool.and_eq_true] at h
  exact h.1

/-- C6 counterexample: a router whose only provider is the local client,
enabled and reachable but with no credential configured; the fallback
order computed at initialization contains it even though its credential
is absent — the claim's "never contains a provider whose credential is
absent" fails. -/
theorem c6_counterexample :
    "local" ∈ (initialize_router [localP]).fallback_order ∧
    localP.has_credential = false ∧
    localP.enabled = true := by
  refine ⟨?_, rfl, rfl⟩
  decide

/-- C6 (amended): after initialization and after every
`refresh_availability` call, the fallback order is exactly the available
providers stably sorted ascending by priority; it never contains a
disabled provider, and never a remote provider whose credential is
absent (the local provider's availability does not require a
credential). -/
theorem c6_amended_fallback_order (providers : List RouterProvider) :
    (initialize_router providers).fallback_order = compute_fallback_order providers ∧
    (∀ s : RouterState,
      (refresh_availability s).fallback_order = compute_fallback_order s.providers) ∧
    (sortedAvailable providers).Perm (providers.filter provider_is_available) ∧
    List.Sorted byPriority (sortedAvailable providers) ∧
    compute_fallback_order providers = (sortedAvailable providers).map (fun p => p.name) ∧
    (∀ nm, nm ∈ compute_fallback_order providers →
      ∃ p, p ∈ providers ∧ p.name = nm ∧ provider_is_available p = true ∧
        p.enabled = true ∧ (p.kind = .remote → p.has_credential = true)) := by
  refine ⟨rfl, fun s => rfl, ?_, ?_, rfl, ?_⟩
  · exact List.perm_insertionSort byPriority _
  · exact List.sorted_insertionSort byPriority _
  · intro nm hnm
    unfold compute_fallback_order at hnm
    rcases List.mem_map.mp hnm with ⟨p, hpmem, hpname⟩
    have hpf : p ∈ providers.filter provider_is_available :=
      (List.Perm.mem_iff (List.perm_insertionSort byPriority _)).mp hpmem
    rcases List.mem_filter.mp hpf with ⟨hpp, hpav⟩
    exact ⟨p, hpp, hpname, hpav, available_imp_enabled p hpav,
      available_remote_imp_credential p hpav⟩

/-- C6 amended witness: a router with the Gemini and local providers;
`"gemini"` is in the fallback order with all the guaranteed properties. -/
theorem c6_amended_witness :
    ∃ p, p ∈ [gemP, localP] ∧ p.name = "gemini" ∧
      provider_is_available p = true ∧ p.enabled = true ∧
      (p.kind = .remote → p.has_credential = true) :=
  (c6_amended_fallback_order [gemP, localP]).2.2.2.2.2 "gemini" (by decide)

theorem callsTo_append (a b : List (String × Nat)) (nm : String) :
    callsTo (a ++ b) nm = callsTo a nm + callsTo b nm := by
  simp [callsTo, List.filter_append]

theorem callsTo_cons (e : String × Nat) (l : List (String × Nat)) (nm : String) :
    callsTo (e :: l) nm = (if e.1 == nm then e.2 else 0) + callsTo l nm := by
  simp only [callsTo, List.filter_cons]
  split
  · simp
  · simp

theorem try_provider_first_auth (behave : Nat → PyCallResult LLMResponse)
    (r : LLMResponse) (f : Nat) (le : String)
    (hb : behave 0 = .ok r) (hs : r.success = false)
    (ha : isAuthClassError (pyOrStr r.error "Unknown provider error") = true) :
    try_provider behave 0 (f + 1) le =
      (none, pyOrStr r.error "Unknown provider error", 1) := by
  unfold try_provider
  rw [hb]
  simp [hs, ha]

theorem try_provider_nonauth_allfail (behave : Nat → PyCallResult LLMResponse)
    (h : ∀ j, ∃ r, behave j = .ok r ∧ r.success = false ∧
      isAuthClassError (pyOrStr r.error "Unknown provider error") = false) :
    ∀ (f i : Nat) (le : String),
      (try_provider behave i f le).1 = none ∧
      (try_provider behave i f le).2.2 = f := by
  intro f
  induction f with
  | zero => intro i le; exact ⟨rfl, rfl⟩
  | succ f ih =>
      intro i le
      rcases h i with ⟨r, hb, hs, ha⟩
      unfold try_provider
      rw [hb]
      simp only [hs, ha, Bool.false_eq_true, if_false]
      exact ⟨(ih (i + 1) _).1, by rw [(ih (i + 1) _).2]⟩

theorem run_fallback_cons (ps : List LiveProvider) (k : Nat) (nm : String)
    (rest : List String) (le : String) :
    run_fallback ps k (nm :: rest) le =
      match findProvider ps nm with
      | none => run_fallback ps k rest le
      | some p =>
          if p.available then
            let t := try_provider p.behave 0 k le
            match t.1 with
            | some r => (some r, t.2.1, [(nm, t.2.2)])
            | none =>
                let q := run_fallback ps k rest t.2.1
                (q.1, q.2.1, (nm, t.2.2) :: q.2.2)
          else run_fallback ps k rest le := rfl

theorem run_fallback_log_names (ps : List LiveProvider) (k : Nat) :
    ∀ (order : List String) (le : String) (e : String × Nat),
      e ∈ (run_fallback ps k order le).2.2 → e.1 ∈ order := by
  intro order
  induction order with
  | nil => intro le e he; exact absurd he (by simp [run_fallback])
  | cons nm rest ih =>
      intro le e he
      rw [run_fallback_cons] at he
      cases hf : findProvider ps nm with
      | none =>
          rw [hf] at he
          exact List.mem_cons_of_mem nm (ih le e he)
      | some p =>
          rw [hf] at he
          dsimp only at he
          by_cases hav : p.available = true
          · rw [if_pos hav] at he
            cases ht : (try_provider p.behave 0 k le).1 with
            | some r =>
                rw [ht] at he
                dsimp only at he
                rcases List.mem_singleton.mp he with rfl
                exact List.mem_cons_self nm rest
            | none =>
                rw [ht] at he
                dsimp only at he
                rcases List.mem_cons.mp he with rfl | hmem
                · exact List.mem_cons_self nm rest
                · exact List.mem_cons_of_mem nm (ih _ e hmem)
          · rw [if_neg hav] at he
            exact List.mem_cons_of_mem nm (ih le e he)

theorem callsTo_zero_of_not_mem (ps : List LiveProvider) (k : Nat)
    (order : List String) (le : String) (nm : String) (h : nm ∉ order) :
    callsTo (run_fallback ps k order le).2.2 nm = 0 := by
  have hfilter : (run_fallback ps k order le).2.2.filter (fun e => e.1 == nm) = [] := by
    rw [List.filter_eq_nil_iff]
    intro e he
    have hmem := run_fallback_log_names ps k order le e he
    simp only [beq_iff_eq]
    intro heq
    exact h (heq ▸ hmem)
  simp [callsTo, hfilter]

theorem run_fallback_log_split (ps : List LiveProvider) (k : Nat) :
    ∀ (pre : List String) (rest : List String) (le : String),
      (run_fallback ps k pre le).1 = none →
      (run_fallback ps k (pre ++ rest) le).2.2 =
        (run_fallback ps k pre le).2.2 ++
        (run_fallback ps k rest (run_fallback ps k pre le).2.1).2.2 := by
  intro pre
  induction pre with
  | nil => intro rest le _; rfl
  | cons nm pre ih =>
      intro rest le hnone
      rw [List.cons_append, run_fallback_cons, run_fallback_cons ps k nm pre le] at *
      cases hf : findProvider ps nm with
      | none =>
          rw [hf] at hnone
          dsimp only at hnone ⊢
          exact ih rest le hnone
      | some p =>
          rw [hf] at hnone
          dsimp only at hnone ⊢
          by_cases hav : p.available = true
          · simp only [if_pos hav] at hnone ⊢
            cases ht : (try_provider p.behave 0 k le).1 with
            | some r =>
                rw [ht] at hnone
                dsimp only at hnone
                exact absurd hnone (by simp)
            | none =>
                rw [ht] at hnone
                dsimp only at hnone ⊢
                rw [ih rest _ hnone]
                rfl
          · simp only [if_neg hav] at hnone ⊢
            exact ih rest le hnone

theorem query_log_eq (ps : List LiveProvider) (k : Nat) (order : List String)
    (h : order.isEmpty = false) :
    (query_with_fallback ps order k).2 =
      (run_fallback ps k order "Unknown error").2.2 := by
  unfold query_with_fallback
  simp only [h, Bool.false_eq_true, if_false]
  cases (run_fallback ps k order "Unknown error").1 <;> rfl

/-- C3: for a provider in the fallback order that is reached (all earlier
providers are exhausted without success): if its first attempt fails with
an authentication-class error, `query_with_fallback` makes exactly one
call to it before moving on; if it always fails with a
non-authentication error, exactly `max_retries` calls are made to it. -/
theorem c3_retry_semantics (ps : List LiveProvider) (pre post : List String)
    (nm : String) (p : LiveProvider) (max_retries : Nat)
    (hfind : findProvider ps nm = some p)
    (hav : p.available = true)
    (hpre : (run_fallback ps max_retries pre "Unknown error").1 = none)
    (hnm_pre : nm ∉ pre) (hnm_post : nm ∉ post) :
    (∀ r, p.behave 0 = .ok r → r.success = false →
      isAuthClassError (pyOrStr r.error "Unknown provider error") = true →
      1 ≤ max_retries →
      callsTo (query_with_fallback ps (pre ++ nm :: post) max_retries).2 nm = 1) ∧
    ((∀ j, ∃ r, p.behave j = .ok r ∧ r.success = false ∧
        isAuthClassError (pyOrStr r.error "Unknown provider error") = false) →
      callsTo (query_with_fallback ps (pre ++ nm :: post) max_retries).2 nm
        = max_retries) := by
  have hempty : (pre ++ nm :: post).isEmpty = false := by
    cases pre <;> rfl
  have hlog := query_log_eq ps max_retries (pre ++ nm :: post) hempty
  have hsplit := run_fallback_log_split ps max_retries pre (nm :: post)
    "Unknown error" hpre
  have hpre0 : callsTo (run_fallback ps max_retries pre "Unknown error").2.2 nm = 0 :=
    callsTo_zero_of_not_mem ps max_retries pre "Unknown error" nm hnm_pre
  constructor
  · intro r hb hs ha hk
    obtain ⟨kk, rfl⟩ : ∃ kk, max_retries = kk + 1 := ⟨max_retries - 1, by omega⟩
    have htry := try_provider_first_auth p.behave r kk
      (run_fallback ps (kk + 1) pre "Unknown error").2.1 hb hs ha
    have hmid : (run_fallback ps (kk + 1) (nm :: post)
        (run_fallback ps (kk + 1) pre "Unknown error").2.1).2.2 =
        (nm, 1) :: (run_fallback ps (kk + 1) post
          (pyOrStr r.error "Unknown provider error")).2.2 := by
      rw [run_fallback_cons, hfind]
      dsimp only
      simp only [if_pos hav]
      rw [htry]
    have hpost0 : callsTo (run_fallback ps (kk + 1) post
        (pyOrStr r.error "Unknown provider error")).2.2 nm = 0 :=
      callsTo_zero_of_not_mem ps (kk + 1) post _ nm hnm_post
    rw [hlog, hsplit, callsTo_append, hpre0, hmid, callsTo_cons]
    simp [hpost0]
  · intro hfail
    obtain ⟨h1, h2⟩ := try_provider_nonauth_allfail p.behave hfail max_retries 0
      (run_fallback ps max_retries pre "Unknown error").2.1
    have hmid : (run_fallback ps max_retries (nm :: post)
        (run_fallback ps max_retries pre "Unknown error").2.1).2.2 =
        (nm, max_retries) :: (run_fallback ps max_retries post
          (try_provider p.behave 0 max_retries
            (run_fallback ps max_retries pre "Unknown error").2.1).2.1).2.2 := by
      rw [run_fallback_cons, hfind]
      dsimp only
      simp only [if_pos hav]
      rw [h1, h2]
    have hpost0 : callsTo (run_fallback ps max_retries post
        (try_provider p.behave 0 max_retries
          (run_fallback ps max_retries pre "Unknown error").2.1).2.1).2.2 nm = 0 :=
      callsTo_zero_of_not_mem ps max_retries post _ nm hnm_post
    rw [hlog, hsplit, callsTo_append, hpre0, hmid, callsTo_cons]
    simp [hpost0]

/-- C3 witness: a single-provider order; the authentication-failing
provider is called once, the plainly failing provider three times
(`max_retries = 3`). -/
theorem c3_witness :
    callsTo (query_with_fallback [authProv] ([] ++ "auth" :: []) 3).2 "auth" = 1 ∧
    callsTo (query_with_fallback [failProv] ([] ++ "fail" :: []) 3).2 "fail" = 3 := by
  constructor
  · exact (c3_retry_semantics [authProv] [] [] "auth" authProv 3 rfl rfl rfl
      (by simp) (by simp)).1 ⟨"", "auth", "m", 0, 0, false, some "bad API key"⟩
      rfl rfl (by decide) (by decide)
  · exact (c3_retry_semantics [failProv] [] [] "fail" failProv 3 rfl rfl rfl
      (by simp) (by simp)).2
      (fun j => ⟨⟨"", "fail", "m", 0, 0, false, some "server error 500"⟩, rfl, rfl,
        by decide⟩)
